import Mathlib

/-!
Verification of the PCOS detection form application (`app.py`).

The development embeds the feature-vector construction pipeline of the
application: the declared column schema `ALL_COLUMNS`, the per-field
encoding performed while the form is read (`get_user_input`), the
dictionary-to-table reindexing step (`input_df[ALL_COLUMNS]`), and the
prediction / display flow around the loaded model.

Numeric values are modelled as rationals; UI widget states are modelled
as functions from the field name to the operator's selection
(`radio : String → String` for choice widgets, `ent : String → Option ℚ`
for numeric entry widgets, where `none` means the operator left the
widget at its default).
-/

/-- `startsSub n h` is true when the character list `n` is an initial
segment of `h`. -/
def startsSub : List Char → List Char → Bool
  | [], _ => true
  | _ :: _, [] => false
  | a :: as, b :: bs => a == b && startsSub as bs

/-- Substring test on character lists: `containsSub n h` is true when the
list `n` occurs contiguously inside `h`.  It models the Python expression
`needle in haystack` used for branch dispatch in `get_user_input`. -/
def containsSub (needle : List Char) : List Char → Bool
  | [] => needle.isEmpty
  | b :: bs => startsSub needle (b :: bs) || containsSub needle bs

/-- `strContains hay needle` models Python's `needle in hay` on strings. -/
def strContains (hay needle : String) : Bool :=
  containsSub needle.toList hay.toList

/-- The declared column schema, copied verbatim from `ALL_COLUMNS` in
`app.py` (the order the trained pipeline expects). -/
def ALL_COLUMNS : List String :=
  ["Age (yrs)", "Weight (Kg)", "Height(Cm)", "BMI", "Blood Group", "Pulse rate(bpm)",
   "RR (breaths/min)", "Hb(g/dl)", "Cycle(R/I)", "Cycle length(days)", "Marraige Status (Yrs)",
   "Pregnant(Y/N)", "No. of abortions", "I   beta-HCG(mIU/mL)", "II    beta-HCG(mIU/mL)",
   "FSH(mIU/mL)", "LH(mIU/mL)", "FSH/LH", "Hip(inch)", "Waist(inch)", "Waist:Hip Ratio",
   "TSH (mIU/L)", "AMH(ng/mL)", "PRL(ng/mL)", "Vit D3 (ng/mL)", "PRG(ng/mL)", "RBS(mg/dl)",
   "Weight gain(Y/N)", "hair growth(Y/N)", "Skin darkening (Y/N)", "Hair loss(Y/N)",
   "Pimples(Y/N)", "Fast food (Y/N)", "Reg.Exercise(Y/N)", "BP _Systolic (mmHg)",
   "BP _Diastolic (mmHg)", "Follicle No. (L)", "Follicle No. (R)", "Avg. F size (L) (mm)",
   "Avg. F size (R) (mm)", "Endometrium (mm)"]

/-- The per-column encoding performed inside the form loop of
`get_user_input`: binary radio fields (name containing `"(Y/N)"`) map
`"Yes"`/`"No"` to `1`/`0`; the cycle-regularity radio field (name
containing `"Cycle(R/I)"`) maps `"Regular"`/`"Irregular"` to `2`/`4`;
beta-HCG numeric widgets carry default value `1.99`; every other numeric
widget carries default value `0.0`. -/
def encodeCol (radio : String → String) (ent : String → Option ℚ) (c : String) : ℚ :=
  if strContains c "(Y/N)" then (if radio c = "Yes" then 1 else 0)
  else if strContains c "Cycle(R/I)" then (if radio c = "Regular" then 2 else 4)
  else if strContains c "beta-HCG" then (ent c).getD 1.99
  else (ent c).getD 0

/-- The dictionary `user_data` assembled by `get_user_input`: one entry
per declared column, in declaration (insertion) order. -/
def user_data (radio : String → String) (ent : String → Option ℚ) : List (String × ℚ) :=
  ALL_COLUMNS.map (fun c => (c, encodeCol radio ent c))

/-- Column lookup in a one-row table represented as an association list:
the first entry whose name matches. -/
def lookupVal (d : List (String × ℚ)) (c : String) : Option ℚ :=
  (d.find? (fun p => p.1 = c)).map Prod.snd

/-- The reindexing step `input_df = input_df[ALL_COLUMNS]`: the columns
of the resulting table are exactly `cols`, in that order, each paired
with its value looked up by name in the incoming row `d` (whatever
iteration order `d` arrived in). -/
def selectCols (d : List (String × ℚ)) (cols : List String) : List (String × Option ℚ) :=
  cols.map (fun c => (c, lookupVal d c))

/-- The feature vector handed to the model: the form dictionary pushed
through the reindexing step. -/
def featureVector (radio : String → String) (ent : String → Option ℚ) :
    List (String × Option ℚ) :=
  selectCols (user_data radio ent) ALL_COLUMNS

/-- The loaded pipeline, as the surrounding code uses it: `predict` over
a feature vector may raise (any exception: the caller wraps the call in
`try`/`except`), modelled as `Except` carrying the exception message;
`predict_proba` either returns a matrix of class probabilities (one row
per input row) or fails in any way — missing attribute, raised
exception — modelled as `none`, since the caller catches every
exception from the probability block uniformly. -/
structure Model where
  predict : List (String × Option ℚ) → Except String ℤ
  predict_proba : List (String × Option ℚ) → Option (List (List ℚ))

/-- The outcome of `load_model`: the artifact loads, the file is
missing (`FileNotFoundError`), or deserialization fails with some
message (any other exception). -/
inductive LoadResult where
  | loaded (m : Model)
  | fileMissing
  | loadError (msg : String)

/-- `load_model` in `app.py`: both failure branches display an error
banner and return `None`. -/
def load_model : LoadResult → Option Model
  | .loaded m => some m
  | .fileMissing => none
  | .loadError _ => none

/-- What the results area displays after a submission is processed,
following the `try`/`except` block of the main logic: a surfaced
prediction error (no label, no probability), or a positive / negative
result each carrying the optional probability used for the
`Risk Probability` metric. -/
inductive Shown where
  | errorMsg (e : String)
  | positive (probability : Option ℚ)
  | negative (probability : Option ℚ)
deriving DecidableEq

/-- The string placed in the `Risk Probability` metric: `"N/A"` when no
probability was obtained, otherwise the probability rendered as a
percentage (the f-string `"{probability*100:.1f}%"`, modelled here by
rounding to one decimal of a percent). -/
def metricValue : Option ℚ → String
  | none => "N/A"
  | some p => toString (((⌊p * 1000 + 1 / 2⌋ : ℤ) : ℚ) / 10) ++ "%"

/-- The prediction block of `app.py` (lines 140–188): call
`model.predict` — if it raises, surface the exception and show nothing
else; otherwise try `model.predict_proba(input_df)[0]` and take entry
`[1]` of that row (any failure anywhere in that block yields `None` /
`"N/A"`); finally branch the display on `prediction == 1`. -/
def runPrediction (m : Model) (v : List (String × Option ℚ)) : Shown :=
  match m.predict v with
  | .error e => .errorMsg e
  | .ok prediction =>
    let probability : Option ℚ := do
      let rows ← m.predict_proba v
      let probs ← rows[0]?
      probs[1]?
    if prediction = 1 then .positive probability else .negative probability

/-- What the main page shows below the title: the missing-model warning
(`else` branch of `if model:`), the form awaiting submission, or the
results of a processed submission. -/
inductive Display where
  | modelMissingWarning
  | formOnly
  | results (s : Shown)
deriving DecidableEq

/-- The main app logic (lines 124–191): with a loaded model, read the
form and, once submitted, build the feature vector and run the
prediction block; with no model, only the warning is shown — the form
is never rendered and no input is read or parsed. -/
def appMain (m : Option Model) (radio : String → String) (ent : String → Option ℚ)
    (pressed : Bool) : Display :=
  match m with
  | some model =>
      if pressed then .results (runPrediction model (featureVector radio ent))
      else .formOnly
  | none => .modelMissingWarning

/-- Numeric value of a decimal digit character. -/
def digitVal (ch : Char) : ℕ := ch.toNat - 48

/-- Value of a digit string read most-significant first. -/
def natOfDigits (ds : List Char) : ℕ := ds.foldl (fun n ch => 10 * n + digitVal ch) 0

/-- Modelled from the spec: the repository's second, near-duplicate form
implementation (present in the repository but not under `src/`; §9 of
the specification describes it) treats the beta-HCG field as free text
and must "attempt to parse it as a real number".  `parseUnsignedDec`
parses an unsigned decimal numeral (digits, optionally a decimal point
and fraction digits, at least one digit in total); any other text fails
to parse. -/
def parseUnsignedDec (cs : List Char) : Option ℚ :=
  match cs.span Char.isDigit with
  | (ds, []) => if ds.isEmpty then none else some (mkRat (natOfDigits ds) 1)
  | (ds, ch :: fs) =>
    if ch == '.' && fs.all Char.isDigit && !(ds.isEmpty && fs.isEmpty) then
      some (mkRat (natOfDigits ds * 10 ^ fs.length + natOfDigits fs) (10 ^ fs.length))
    else none

/-- Modelled from the spec: signed decimal parsing of the free-text
fallback field (see `parseUnsignedDec`). -/
def parseDecimal (s : String) : Option ℚ :=
  match s.toList with
  | '-' :: rest => (parseUnsignedDec rest).map Neg.neg
  | cs => parseUnsignedDec cs

/-- Modelled from the spec: the builder's single error kind,
`MalformedNumericField`, "reporting the field name and the offending
text". -/
inductive BuildError where
  | MalformedNumericField (field : String) (text : String)
deriving DecidableEq

/-- Modelled from the spec: the per-field encoding of the text-fallback
builder.  Choice fields encode as in `src/app.py`; a fallback field
(name containing `"beta-HCG"`) parses its free text `txt` and fails
with `MalformedNumericField` when parsing fails; plain numeric fields
never fail. -/
def encodeColSpec (radio : String → String) (ent : String → Option ℚ)
    (txt : String → String) (c : String) : Except BuildError ℚ :=
  if strContains c "(Y/N)" then .ok (if radio c = "Yes" then 1 else 0)
  else if strContains c "Cycle(R/I)" then .ok (if radio c = "Regular" then 2 else 4)
  else if strContains c "beta-HCG" then
    match parseDecimal (txt c) with
    | some q => .ok q
    | none => .error (.MalformedNumericField c (txt c))
  else .ok ((ent c).getD 0)

/-- Modelled from the spec: building the (name, value) sequence over a
column list, stopping at the first malformed fallback field. -/
def buildSpecAux (radio : String → String) (ent : String → Option ℚ)
    (txt : String → String) : List String → Except BuildError (List (String × ℚ))
  | [] => .ok []
  | c :: cs =>
    match encodeColSpec radio ent txt c with
    | .error e => .error e
    | .ok q =>
      match buildSpecAux radio ent txt cs with
      | .error e => .error e
      | .ok rest => .ok ((c, q) :: rest)

/-- Modelled from the spec: `build(rawInputs) -> FeatureVector` of the
text-fallback builder, over the declared schema. -/
def buildSpec (radio : String → String) (ent : String → Option ℚ)
    (txt : String → String) : Except BuildError (List (String × ℚ)) :=
  buildSpecAux radio ent txt ALL_COLUMNS

/-- A fixed choice-widget state used by concrete witnesses: every radio
widget on its first option. -/
def wRadio : String → String := fun _ => "No"

/-- A fixed numeric-widget state used by concrete witnesses: every
numeric widget left at its default. -/
def wEnt : String → Option ℚ := fun _ => none

/-- A fixed text-widget state used by concrete witnesses: non-numeric
text in every free-text widget. -/
def wTxt : String → String := fun _ => "abc"

/- ------------------------------------------------------------------ -/
/- Theorems                                                           -/
/- ------------------------------------------------------------------ -/

/-- Looking a key up in an association list whose keys are pairwise
distinct gives the same answer in any iteration order of the list. -/
theorem lookupVal_perm {d₁ d₂ : List (String × ℚ)}
    (h : d₁.Perm d₂) (nd : (d₁.map Prod.fst).Nodup) (c : String) :
    lookupVal d₁ c = lookupVal d₂ c := by
  induction h with
  | nil => rfl
  | cons x h ih =>
      have nd' : ((List.map Prod.fst _).Nodup) :=
        (List.nodup_cons.mp (by simpa only [List.map_cons] using nd)).2
      by_cases hx : x.1 = c
      · simp [lookupVal, List.find?_cons, hx]
      · simp only [lookupVal, List.find?_cons, hx, decide_eq_true_eq, if_neg]
        simpa [lookupVal] using ih nd'
  | swap x y l =>
      have hnd : (y.1 :: x.1 :: List.map Prod.fst l).Nodup := by
        simpa only [List.map_cons] using nd
      have hxy : ¬ y.1 = x.1 := by
        intro hEq
        exact (List.nodup_cons.mp hnd).1 (by simp [hEq])
      by_cases hy : y.1 = c <;> by_cases hx : x.1 = c
      · exact absurd (hy.trans hx.symm) hxy
      · simp [lookupVal, List.find?_cons, hy, hx]
      · simp [lookupVal, List.find?_cons, hy, hx]
      · simp [lookupVal, List.find?_cons, hy, hx]
  | trans h₁ h₂ ih₁ ih₂ =>
      exact (ih₁ nd).trans (ih₂ ((h₁.map Prod.fst).nodup_iff.mp nd))

/-- The declared column names are pairwise distinct. -/
theorem all_columns_nodup : ALL_COLUMNS.Nodup := by decide

/-- The keys of the form dictionary are the declared columns, in
declaration order. -/
theorem user_data_keys (radio : String → String) (ent : String → Option ℚ) :
    (user_data radio ent).map Prod.fst = ALL_COLUMNS := by
  simp only [user_data, List.map_map]
  exact List.map_id _ ▸ rfl

/-- An error of the spec-modelled builder can only arise from a
fallback (beta-HCG) column of the schema whose text fails to parse, and
it reports that field's name and its offending text. -/
theorem buildSpecAux_error (radio : String → String) (ent : String → Option ℚ)
    (txt : String → String) (cols : List String) (e : BuildError)
    (h : buildSpecAux radio ent txt cols = .error e) :
    ∃ f ∈ cols, strContains f "beta-HCG" = true ∧ parseDecimal (txt f) = none ∧
      e = .MalformedNumericField f (txt f) := by
  induction cols with
  | nil => simp [buildSpecAux] at h
  | cons c cs ih =>
      rw [buildSpecAux] at h
      rcases henc : encodeColSpec radio ent txt c with eVal | q
      · rw [henc] at h
        have he : eVal = e := by
          simpa using h
        subst he
        refine ⟨c, by simp, ?_⟩
        unfold encodeColSpec at henc
        by_cases h1 : strContains c "(Y/N)" = true
        · simp [h1] at henc
        · by_cases h2 : strContains c "Cycle(R/I)" = true
          · simp [h1, h2] at henc
          · by_cases h3 : strContains c "beta-HCG" = true
            · simp only [h1, h2, h3, Bool.false_eq_true, if_false, if_true] at henc
              rcases hp : parseDecimal (txt c) with _ | q
              · rw [hp] at henc
                exact ⟨h3, rfl, by simpa using henc.symm⟩
              · rw [hp] at henc
                exact absurd henc (by simp)
            · simp [h1, h2, h3] at henc
      · rw [henc] at h
        rcases hrest : buildSpecAux radio ent txt cs with eVal | rest
        · rw [hrest] at h
          have he : eVal = e := by simpa using h
          subst he
          obtain ⟨f, hf, hprops⟩ := ih hrest
          exact ⟨f, by simp [hf], hprops⟩
        · rw [hrest] at h
          simp at h

/-- Claim C1: for every well-formed raw-input mapping, the feature
vector produced for the predictor lists its (name, value) pairs in
exactly the declared schema order (the order of `ALL_COLUMNS`),
independent of the iteration order of the raw-input mapping supplied by
the operator: reindexing any permutation `d` of the form dictionary
yields the same vector as reindexing the dictionary itself, and the
names of that vector are exactly `ALL_COLUMNS` in order. -/
theorem featureVector_order (radio : String → String) (ent : String → Option ℚ)
    (d : List (String × ℚ)) (hd : d.Perm (user_data radio ent)) :
    selectCols d ALL_COLUMNS = featureVector radio ent ∧
    (selectCols d ALL_COLUMNS).map Prod.fst = ALL_COLUMNS := by
  have ndu : ((user_data radio ent).map Prod.fst).Nodup := by
    rw [user_data_keys]; exact all_columns_nodup
  have ndd : (d.map Prod.fst).Nodup := ((hd.map Prod.fst).nodup_iff).mpr ndu
  constructor
  · have hfun : (fun c => (c, lookupVal d c)) =
        (fun c => (c, lookupVal (user_data radio ent) c)) :=
      funext fun c => by rw [lookupVal_perm hd ndd c]
    simp only [featureVector, selectCols, hfun]
  · simp only [selectCols, List.map_map]
    exact List.map_id _ ▸ rfl

/-- Witness for C1 at a concrete input: the reversed form dictionary
reindexes to the same vector, with names exactly `ALL_COLUMNS`. -/
theorem featureVector_order_witness :
    selectCols ((user_data wRadio wEnt).reverse) ALL_COLUMNS = featureVector wRadio wEnt ∧
    (selectCols ((user_data wRadio wEnt).reverse) ALL_COLUMNS).map Prod.fst = ALL_COLUMNS :=
  featureVector_order wRadio wEnt ((user_data wRadio wEnt).reverse)
    (List.reverse_perm (user_data wRadio wEnt))

/-- Counterexample to claim C2 as stated: the declared schema has 41
fields, not 40. -/
theorem all_columns_not_forty : ALL_COLUMNS.length = 41 ∧ ¬ ALL_COLUMNS.length = 40 := by
  decide

/-- Claim C2 (amended): the declared schema has exactly 41 fields, and
for every well-formed raw input the built feature vector has exactly 41
entries (one per field). -/
theorem featureVector_length (radio : String → String) (ent : String → Option ℚ) :
    ALL_COLUMNS.length = 41 ∧ (featureVector radio ent).length = 41 := by
  refine ⟨by decide, ?_⟩
  simp only [featureVector, selectCols, List.length_map]
  decide

/-- Claim C4: for every Binary-kind field (every column whose name
contains `"(Y/N)"`), the raw choice `"Yes"` is encoded as 1 and the raw
choice `"No"` is encoded as 0. -/
theorem binary_field_encoding (radio : String → String) (ent : String → Option ℚ)
    (c : String) (h : strContains c "(Y/N)" = true) :
    (radio c = "Yes" → encodeCol radio ent c = 1) ∧
    (radio c = "No" → encodeCol radio ent c = 0) := by
  constructor <;> intro hv <;> simp [encodeCol, h, hv]

/-- Witness for C4 at a concrete binary column. -/
theorem binary_field_encoding_witness :
    strContains "Pregnant(Y/N)" "(Y/N)" = true ∧
    encodeCol (fun _ => "Yes") wEnt "Pregnant(Y/N)" = 1 ∧
    encodeCol (fun _ => "No") wEnt "Pregnant(Y/N)" = 0 :=
  ⟨by decide,
   (binary_field_encoding (fun _ => "Yes") wEnt "Pregnant(Y/N)" (by decide)).1 rfl,
   (binary_field_encoding (fun _ => "No") wEnt "Pregnant(Y/N)" (by decide)).2 rfl⟩

/-- Claim C5: for the cycle-regularity field, the raw choice
`"Regular"` is encoded as the ordinal code 2 and the raw choice
`"Irregular"` as 4 — in particular never 0 or 1. -/
theorem cycle_field_encoding (radio : String → String) (ent : String → Option ℚ) :
    (radio "Cycle(R/I)" = "Regular" →
      encodeCol radio ent "Cycle(R/I)" = 2 ∧
      encodeCol radio ent "Cycle(R/I)" ≠ 0 ∧ encodeCol radio ent "Cycle(R/I)" ≠ 1) ∧
    (radio "Cycle(R/I)" = "Irregular" →
      encodeCol radio ent "Cycle(R/I)" = 4 ∧
      encodeCol radio ent "Cycle(R/I)" ≠ 0 ∧ encodeCol radio ent "Cycle(R/I)" ≠ 1) := by
  have h1 : strContains "Cycle(R/I)" "(Y/N)" = false := by decide
  have h2 : strContains "Cycle(R/I)" "Cycle(R/I)" = true := by decide
  constructor <;> intro hv <;>
    refine ⟨by simp [encodeCol, h1, h2, hv], ?_, ?_⟩ <;>
    simp [encodeCol, h1, h2, hv]

/-- Witness for C5 at both concrete choices. -/
theorem cycle_field_encoding_witness :
    (encodeCol (fun _ => "Regular") wEnt "Cycle(R/I)" = 2 ∧
      encodeCol (fun _ => "Regular") wEnt "Cycle(R/I)" ≠ 0 ∧
      encodeCol (fun _ => "Regular") wEnt "Cycle(R/I)" ≠ 1) ∧
    (encodeCol (fun _ => "Irregular") wEnt "Cycle(R/I)" = 4 ∧
      encodeCol (fun _ => "Irregular") wEnt "Cycle(R/I)" ≠ 0 ∧
      encodeCol (fun _ => "Irregular") wEnt "Cycle(R/I)" ≠ 1) :=
  ⟨(cycle_field_encoding (fun _ => "Regular") wEnt).1 rfl,
   (cycle_field_encoding (fun _ => "Irregular") wEnt).2 rfl⟩

/-- Claim C6: for every Numeric-kind field (neither a binary nor the
cycle-regularity choice field), when the operator provides no value the
field takes its field-specific default: 1.99 for the beta-HCG-type
fields and 0.0 for every other numeric field. -/
theorem numeric_field_defaults (radio : String → String) (c : String)
    (hyn : strContains c "(Y/N)" = false) (hcy : strContains c "Cycle(R/I)" = false) :
    (strContains c "beta-HCG" = true → encodeCol radio (fun _ => none) c = 1.99) ∧
    (strContains c "beta-HCG" = false → encodeCol radio (fun _ => none) c = 0) := by
  constructor <;> intro hb <;> simp [encodeCol, hyn, hcy, hb, Option.getD]

/-- Witness for C6 at a beta-HCG column and a plain numeric column. -/
theorem numeric_field_defaults_witness :
    strContains "I   beta-HCG(mIU/mL)" "(Y/N)" = false ∧
    strContains "BMI" "Cycle(R/I)" = false ∧
    encodeCol wRadio (fun _ => none) "I   beta-HCG(mIU/mL)" = 1.99 ∧
    encodeCol wRadio (fun _ => none) "BMI" = 0 :=
  ⟨by decide, by decide,
   (numeric_field_defaults wRadio "I   beta-HCG(mIU/mL)" (by decide) (by decide)).1 (by decide),
   (numeric_field_defaults wRadio "BMI" (by decide) (by decide)).2 (by decide)⟩

/-- Claim C3 (against the spec-modelled text-fallback builder, which is
not in `src/`): for a fallback (beta-HCG) field the builder accepts free
text, parses it as a real number — the text `"1.99"` yields the numeric
value 1.99 — and when parsing fails (text `"abc"`) it fails with
`MalformedNumericField` reporting the field name and the offending
text; moreover a malformed fallback field is the only error condition
of the builder. -/
theorem fallback_field_parse (radio : String → String) (ent : String → Option ℚ)
    (txt : String → String) (c : String)
    (hyn : strContains c "(Y/N)" = false) (hcy : strContains c "Cycle(R/I)" = false)
    (hfb : strContains c "beta-HCG" = true) :
    (txt c = "1.99" → encodeColSpec radio ent txt c = .ok (1.99 : ℚ)) ∧
    (txt c = "abc" →
      encodeColSpec radio ent txt c = .error (.MalformedNumericField c "abc")) ∧
    (∀ e, buildSpec radio ent txt = .error e →
      ∃ f ∈ ALL_COLUMNS, strContains f "beta-HCG" = true ∧
        parseDecimal (txt f) = none ∧ e = .MalformedNumericField f (txt f)) := by
  refine ⟨?_, ?_, ?_⟩
  · intro hv
    have hnum : (1.99 : ℚ) = mkRat 199 100 := by norm_num [Rat.mkRat_eq_div]
    have hparse : parseDecimal "1.99" = some (mkRat 199 100) := by decide
    simp [encodeColSpec, hyn, hcy, hfb, hv, hparse, hnum]
  · intro hv
    have hparse : parseDecimal "abc" = none := by decide
    simp [encodeColSpec, hyn, hcy, hfb, hv, hparse]
  · intro e he
    exact buildSpecAux_error radio ent txt ALL_COLUMNS e he

/-- Witness for C3 at the first beta-HCG column with the offending text
`"abc"` in every text widget. -/
theorem fallback_field_parse_witness :
    strContains "I   beta-HCG(mIU/mL)" "(Y/N)" = false ∧
    strContains "I   beta-HCG(mIU/mL)" "Cycle(R/I)" = false ∧
    strContains "I   beta-HCG(mIU/mL)" "beta-HCG" = true ∧
    ((wTxt "I   beta-HCG(mIU/mL)" = "1.99" →
       encodeColSpec wRadio wEnt wTxt "I   beta-HCG(mIU/mL)" = .ok (1.99 : ℚ)) ∧
     (wTxt "I   beta-HCG(mIU/mL)" = "abc" →
       encodeColSpec wRadio wEnt wTxt "I   beta-HCG(mIU/mL)" =
         .error (.MalformedNumericField "I   beta-HCG(mIU/mL)" "abc")) ∧
     (∀ e, buildSpec wRadio wEnt wTxt = .error e →
       ∃ f ∈ ALL_COLUMNS, strContains f "beta-HCG" = true ∧
         parseDecimal (wTxt f) = none ∧ e = .MalformedNumericField f (wTxt f))) :=
  ⟨by decide, by decide, by decide,
   fallback_field_parse wRadio wEnt wTxt "I   beta-HCG(mIU/mL)"
     (by decide) (by decide) (by decide)⟩

/-- Claim C7: if the model artifact fails to load at startup (file
missing or deserialization error), the page shows only the
model-missing warning, for every possible operator input and submission
attempt — the form and its parsing logic are never reached, nothing
crashes, and no result is ever produced. -/
theorem model_unavailable_disables (r : LoadResult) (h : ∀ m, r ≠ .loaded m)
    (radio : String → String) (ent : String → Option ℚ) (pressed : Bool) :
    appMain (load_model r) radio ent pressed = .modelMissingWarning ∧
    ∀ s, appMain (load_model r) radio ent pressed ≠ .results s := by
  have hm : load_model r = none := by
    cases r with
    | loaded m => exact absurd rfl (h m)
    | fileMissing => rfl
    | loadError msg => rfl
  rw [hm]
  exact ⟨rfl, fun s => by simp [appMain]⟩

/-- Witness for C7: the artifact file is absent and the operator
attempts a submission. -/
theorem model_unavailable_disables_witness :
    appMain (load_model .fileMissing) wRadio wEnt true = .modelMissingWarning ∧
    ∀ s, appMain (load_model .fileMissing) wRadio wEnt true ≠ .results s :=
  model_unavailable_disables .fileMissing (fun _ h => nomatch h) wRadio wEnt true

/-- Claim C8: when the predictor does not support probability scoring,
the result still shows the binary label, the probability field reads
"not available" (the string `"N/A"`), and no error is surfaced —
probability unavailability is a supported degraded mode. -/
theorem proba_unavailable_mode (pr : List (String × Option ℚ) → Except String ℤ)
    (v : List (String × Option ℚ)) (lbl : ℤ) (hp : pr v = .ok lbl) :
    runPrediction ⟨pr, fun _ => none⟩ v =
      (if lbl = 1 then .positive none else .negative none) ∧
    metricValue none = "N/A" ∧
    ∀ e, runPrediction ⟨pr, fun _ => none⟩ v ≠ .errorMsg e := by
  refine ⟨?_, rfl, ?_⟩
  · simp [runPrediction, hp]
  · intro e
    by_cases hl : lbl = 1 <;> simp [runPrediction, hp, hl]

/-- Witness for C8: a predictor that returns the positive label and
supports no probability scoring. -/
theorem proba_unavailable_mode_witness :
    runPrediction ⟨fun _ => .ok 1, fun _ => none⟩ (featureVector wRadio wEnt) =
      (if (1 : ℤ) = 1 then .positive none else .negative none) ∧
    metricValue none = "N/A" ∧
    ∀ e, runPrediction ⟨fun _ => .ok 1, fun _ => none⟩ (featureVector wRadio wEnt) ≠
      .errorMsg e :=
  proba_unavailable_mode (fun _ => .ok 1) (featureVector wRadio wEnt) 1 rfl

/-- Claim C9: if the predictor call raises for any reason, the failure
is surfaced to the operator as a single error and no partial result —
neither label nor probability — is shown. -/
theorem prediction_error_surfaced (m : Model) (v : List (String × Option ℚ))
    (e : String) (h : m.predict v = .error e) :
    runPrediction m v = .errorMsg e ∧
    (∀ p, runPrediction m v ≠ .positive p) ∧
    (∀ p, runPrediction m v ≠ .negative p) := by
  refine ⟨by simp [runPrediction, h], ?_, ?_⟩ <;> intro p <;> simp [runPrediction, h]

/-- Witness for C9: a predictor that raises on every input. -/
theorem prediction_error_surfaced_witness :
    runPrediction ⟨fun _ => .error "shape mismatch", fun _ => none⟩
      (featureVector wRadio wEnt) = .errorMsg "shape mismatch" ∧
    (∀ p, runPrediction ⟨fun _ => .error "shape mismatch", fun _ => none⟩
      (featureVector wRadio wEnt) ≠ .positive p) ∧
    (∀ p, runPrediction ⟨fun _ => .error "shape mismatch", fun _ => none⟩
      (featureVector wRadio wEnt) ≠ .negative p) :=
  prediction_error_surfaced ⟨fun _ => .error "shape mismatch", fun _ => none⟩
    (featureVector wRadio wEnt) "shape mismatch" rfl

/-- Claim C10: whenever the predictor supports scoring, the displayed
probability is entry 1 of row 0 of the `predict_proba` matrix — the
probability of class 1 — in both the positive and the negative result
branch; in particular a negative result is displayed with the positive
class's probability. -/
theorem probability_is_class1 (pr : List (String × Option ℚ) → Except String ℤ)
    (v : List (String × Option ℚ)) (lbl : ℤ) (p0 p1 : ℚ) (rest : List ℚ)
    (rows : List (List ℚ)) (hp : pr v = .ok lbl) :
    runPrediction ⟨pr, fun _ => some ((p0 :: p1 :: rest) :: rows)⟩ v =
      (if lbl = 1 then .positive (some p1) else .negative (some p1)) := by
  simp [runPrediction, hp]

/-- Witness for C10: a negative prediction whose displayed probability
is the class-1 entry, not the probability of the predicted class 0. -/
theorem probability_is_class1_witness :
    runPrediction ⟨fun _ => .ok 0, fun _ => some [[mkRat 3 4, mkRat 1 4]]⟩
      (featureVector wRadio wEnt) = .negative (some (mkRat 1 4)) := by
  have h := probability_is_class1 (fun _ => .ok 0) (featureVector wRadio wEnt) 0
    (mkRat 3 4) (mkRat 1 4) [] [] rfl
  simpa using h

example : parseDecimal "1.99" = some (mkRat 199 100) := by decide
example : parseDecimal "abc" = none := by decide
example : parseDecimal "-3.5" = some (mkRat (-7) 2) := by decide
example : parseDecimal "" = none := by decide
example : parseDecimal "12" = some (mkRat 12 1) := by decide
example : (1.99 : ℚ) = mkRat 199 100 := by norm_num [Rat.mkRat_eq_div]

example : strContains "Pregnant(Y/N)" "(Y/N)" = true := by decide
example : strContains "Cycle(R/I)" "(Y/N)" = false := by decide
example : strContains "Cycle(R/I)" "Cycle(R/I)" = true := by decide
example : strContains "I   beta-HCG(mIU/mL)" "beta-HCG" = true := by decide
example : ALL_COLUMNS.length = 41 := by decide
example : ALL_COLUMNS.Nodup := by decide
